import Mathlib

/-!
Verification of the `ParallelCoordinates` visualizer from
`yellowbrick/features/pcoords.py` (class `ParallelCoordinates`, methods
`__init__` and `fit`).

The embedding is shallow: the Python data is translated to Lean values and
the two methods become pure functions.  The matplotlib axes object is an
external collaborator; we model it as a record of the drawing calls issued
by one `fit` invocation (`Axes`).  Python exceptions become the `PyError`
type and fallible code returns `Except PyError`.

Modelling notes, each tied to a line of the source:
* `X` is the observation matrix.  We model it as a list of rows together
  with the column count from `X.shape` and an optional list of column
  labels (present exactly when `hasattr(X, "columns")` holds).  The loop
  `for idx, row in enumerate(X)` iterates the rows of a numeric 2D array
  but the column labels of a tabular (DataFrame) input; `pyEnumerate`
  models both cases and `RowData` is the type of the iterated items.
* `set(y)` in Python iterates in an unspecified order; `pySetList` fixes
  first-occurrence order.  No theorem below depends on the particular
  order, only on the distinct values and their count.
* Python list indexing `xs[i]` accepts negative indices down to `-len`
  and raises `IndexError("list index out of range")` otherwise
  (`pyListGetInt`); `dict(zip(ks, vs))` pairs positionally, truncating to
  the shorter list, with later duplicate keys winning (`pyZipDict`,
  `pyDictGet`).
* In the source, `self.classes_` and `self.features_` are assigned as soon
  as they are resolved, and the tick calls precede `set_xlim`.  Because an
  exception aborts the whole call and the model returns no axes record on
  error, performing all updates at the single success exit point is
  observationally the same for the properties proved here.
-/

namespace PCoords

/-- Values that can appear in a matplotlib keyword-argument dictionary such
as `vlines_kwds` (the source uses the int `1` and the string `"black"`). -/
inductive SVal
  | int (n : Int)
  | str (s : String)
deriving DecidableEq

/-- Python exceptions that the `fit` path can raise. -/
inductive PyError
  | typeError (msg : String)
  | indexError (msg : String)
  | keyError (key : String)
deriving DecidableEq

/-- The observation matrix argument `X` of `fit`: its rows, the column
count `ncols` from `X.shape`, and the column labels when the input is a
tabular type exposing a `columns` attribute. -/
structure XData where
  rows : List (List Int)
  ncols : Nat
  columns : Option (List String)
deriving DecidableEq

/-- One item produced by `for idx, row in enumerate(X)`: a row of values
for a plain 2D array, a column label for a tabular input (iterating a
DataFrame yields its column names, not its rows). -/
inductive RowData
  | vals (r : List Int)
  | colName (s : String)
deriving DecidableEq

/-- One `ax.plot(x, row, color=..., label=...)` call; `ys` records the
object the loop passed as the second argument. -/
structure PlotCall where
  xs : List Nat
  ys : RowData
  color : String
  label : String
deriving DecidableEq

/-- The drawing calls issued on the axes by one `fit` invocation:
`ax.plot` calls, `ax.axvline` calls with their style dictionaries,
`ax.set_xticks`, `ax.set_xticklabels` and `ax.set_xlim`. -/
structure Axes where
  plots : List PlotCall
  vlines : List (Nat × List (String × SVal))
  xticks : List Nat
  xticklabels : List String
  xlim : Option (Nat × Nat)
deriving DecidableEq

/-- The attributes of a `ParallelCoordinates` instance that `fit` reads or
writes. -/
structure PCState where
  features_ : Option (List String)
  classes_ : Option (List String)
  color : Option (List String)
  colormap : Option String
  show_vlines : Bool
  vlines_kwds : List (String × SVal)
deriving DecidableEq

/-- The default vertical-line style from `__init__`:
`{"linewidth": 1, "color": "black"}`. -/
def defaultVlinesKwds : List (String × SVal) :=
  [("linewidth", SVal.int 1), ("color", SVal.str "black")]

/-- The constructor `ParallelCoordinates.__init__`.  The expression
`vlines_kwds or {...}` substitutes the default whenever the supplied value
is falsy, which for a dictionary means `None` or empty. -/
def ParallelCoordinates.init (features classes : Option (List String))
    (color : Option (List String)) (colormap : Option String)
    (vlines : Bool) (vlines_kwds : Option (List (String × SVal))) : PCState :=
  { features_ := features
    classes_ := classes
    color := color
    colormap := colormap
    show_vlines := vlines
    vlines_kwds :=
      match vlines_kwds with
      | none => defaultVlinesKwds
      | some d => if d.isEmpty then defaultVlinesKwds else d }

/-- Iteration over `set(y)`, modelled in first-occurrence order (CPython
leaves the order unspecified; no theorem depends on it). -/
def pySetList (l : List Int) : List Int :=
  l.foldl (fun acc a => if a ∈ acc then acc else acc ++ [a]) []

/-- The sequence of items yielded by `enumerate(X)`: the rows of a plain
2D array, but the column labels of a tabular input exposing `columns`. -/
def pyEnumerate (X : XData) : List RowData :=
  match X.columns with
  | none => X.rows.map RowData.vals
  | some cols => cols.map RowData.colName

/-- Python list indexing `xs[i]` for a nonnegative index. -/
def pyListGetNat {α : Type} (xs : List α) (i : Nat) : Except PyError α :=
  match xs.get? i with
  | some v => Except.ok v
  | none => Except.error (PyError.indexError "list index out of range")

/-- Python list indexing `xs[i]` for a possibly negative index: indices in
`[-len, len)` are valid, negative ones count from the end. -/
def pyListGetInt {α : Type} (xs : List α) (i : Int) : Except PyError α :=
  if 0 ≤ i then
    match xs.get? i.toNat with
    | some v => Except.ok v
    | none => Except.error (PyError.indexError "list index out of range")
  else if (-i).toNat ≤ xs.length then
    match xs.get? (xs.length - (-i).toNat) with
    | some v => Except.ok v
    | none => Except.error (PyError.indexError "list index out of range")
  else Except.error (PyError.indexError "list index out of range")

/-- The dictionary `dict(zip(ks, vs))`: positional pairs, truncated to the
shorter input. -/
def pyZipDict (ks vs : List String) : List (String × String) := ks.zip vs

/-- Python dictionary lookup `d[k]`; with duplicate keys the last binding
wins, and a missing key raises `KeyError`. -/
def pyDictGet (d : List (String × String)) (k : String) : Except PyError String :=
  match d.reverse.lookup k with
  | some v => Except.ok v
  | none => Except.error (PyError.keyError k)

/-- Total variant of `pyDictGet`, used to describe successful lookups. -/
def dictGetD (d : List (String × String)) (k : String) : String :=
  (d.reverse.lookup k).getD ""

/-- Total variant of class indexing `classes_[label]` for an index known to
be in range. -/
def clsOf (cs : List String) (l : Int) : String := cs.getD l.toNat ""

/-- Modelled from the spec: `resolve_colors` lives in
`yellowbrick/color_utils.py`, which is not among the provided sources.
Per the external-interface contract, given a requested count of colors, an
optional continuous color-scale identifier and an optional explicit
palette, it returns exactly that many colors, ordered. -/
def resolve_colors (num_colors : Nat) (colormap : Option String)
    (color : Option (List String)) : List String :=
  match color with
  | some cs =>
    if cs.length = 0 then (List.range num_colors).map (fun i => "color" ++ toString i)
    else (List.range num_colors).map (fun i => cs.getD (i % cs.length) "black")
  | none =>
    match colormap with
    | some cm => (List.range num_colors).map (fun i => cm ++ toString i)
    | none => (List.range num_colors).map (fun i => "color" ++ toString i)

/-- The class-resolution block of `fit`: keep `self.classes_` when already
set, otherwise `[str(label) for label in set(y)]`; iterating `None` raises
`TypeError`. -/
def resolveClasses (classes_ : Option (List String)) (y : Option (List Int)) :
    Except PyError (List String) :=
  match classes_ with
  | some cs => Except.ok cs
  | none =>
    match y with
    | some ys => Except.ok ((pySetList ys).map (fun l => toString l))
    | none => Except.error (PyError.typeError "NoneType object is not iterable")

/-- The feature-resolution block of `fit`: keep `self.features_` when
already set, otherwise `X.columns` when the input exposes column labels,
otherwise `[str(cdx) for cdx in range(ncols)]`. -/
def resolveFeatures (features_ : Option (List String))
    (columns : Option (List String)) (ncols : Nat) : List String :=
  match features_ with
  | some fs => fs
  | none =>
    match columns with
    | some cols => cols
    | none => (List.range ncols).map (fun c => toString c)

/-- One iteration of the instance loop of `fit`:
`label = y[idx]; label = self.classes_[label];
self.ax.plot(x, row, color=colors[label], label=label)`.
Subscripting a missing `y` raises `TypeError`. -/
def drawRow (x : List Nat) (classes : List String)
    (colors : List (String × String)) (y : Option (List Int)) (idx : Nat)
    (row : RowData) : Except PyError PlotCall :=
  match (match y with
         | none => Except.error (PyError.typeError "NoneType object has no attribute getitem")
         | some ys => pyListGetNat ys idx) with
  | Except.error e => Except.error e
  | Except.ok rawLabel =>
    match pyListGetInt classes rawLabel with
    | Except.error e => Except.error e
    | Except.ok cls =>
      match pyDictGet colors cls with
      | Except.error e => Except.error e
      | Except.ok c => Except.ok { xs := x, ys := row, color := c, label := cls }

/-- The instance loop `for idx, row in enumerate(X)` of `fit`, collecting
the `ax.plot` calls and aborting at the first exception. -/
def drawRows (x : List Nat) (classes : List String)
    (colors : List (String × String)) (y : Option (List Int)) (idx : Nat) :
    List RowData → Except PyError (List PlotCall)
  | [] => Except.ok []
  | row :: rest =>
    match drawRow x classes colors y idx row with
    | Except.error e => Except.error e
    | Except.ok p =>
      match drawRows x classes colors y (idx + 1) rest with
      | Except.error e => Except.error e
      | Except.ok ps => Except.ok (p :: ps)

/-- The method `ParallelCoordinates.fit(X, y)`: resolve classes and
features, build the axis positions `x = list(range(ncols))`, build the
per-class color dictionary, draw one polyline per instance, draw the
vertical guide lines when enabled, set the ticks and tick labels, and set
the horizontal limits to `(x[0], x[-1])`. -/
def fit (s : PCState) (X : XData) (y : Option (List Int)) :
    Except PyError (PCState × Axes) :=
  let ncols := X.ncols
  match resolveClasses s.classes_ y with
  | Except.error e => Except.error e
  | Except.ok classes =>
    let features := resolveFeatures s.features_ X.columns ncols
    let x := List.range ncols
    let color_values := resolve_colors classes.length s.colormap s.color
    let colors := pyZipDict classes color_values
    match drawRows x classes colors y 0 (pyEnumerate X) with
    | Except.error e => Except.error e
    | Except.ok plots =>
      let vl := if s.show_vlines then x.map (fun i => (i, s.vlines_kwds)) else []
      match pyListGetNat x 0 with
      | Except.error e => Except.error e
      | Except.ok x0 =>
        match pyListGetInt x (-1) with
        | Except.error e => Except.error e
        | Except.ok xlast =>
          Except.ok
            ({ s with classes_ := some classes, features_ := some features },
             { plots := plots
               vlines := vl
               xticks := x
               xticklabels := features
               xlim := some (x0, xlast) })

/-- The plot calls that a successful instance loop issues, one per
label/row pair. -/
def expectedPlots (x : List Nat) (cs : List String)
    (colors : List (String × String)) (pairs : List (Int × RowData)) :
    List PlotCall :=
  pairs.map (fun p =>
    { xs := x, ys := p.2, color := dictGetD colors (clsOf cs p.1),
      label := clsOf cs p.1 })

/-! Helper lemmas about the Python primitives. -/

lemma lookup_isSome_of_mem_fst {k : String} :
    ∀ {d : List (String × String)}, k ∈ d.map Prod.fst → (d.lookup k).isSome := by
  intro d
  induction d with
  | nil => intro h; simp at h
  | cons a rest ih =>
    intro h
    simp only [List.map_cons, List.mem_cons] at h
    rcases h with h | h
    · subst h
      simp [List.lookup]
    · cases hbe : (k == a.1) with
      | true => simp [List.lookup, hbe]
      | false => simpa [List.lookup, hbe] using ih h

lemma pyDictGet_ok {d : List (String × String)} {k : String}
    (h : k ∈ d.map Prod.fst) : pyDictGet d k = Except.ok (dictGetD d k) := by
  have h2 : k ∈ d.reverse.map Prod.fst := by
    rw [List.map_reverse, List.mem_reverse]
    exact h
  obtain ⟨v, hv⟩ := Option.isSome_iff_exists.mp (lookup_isSome_of_mem_fst h2)
  rw [pyDictGet, dictGetD, hv]
  rfl

lemma resolve_colors_length (n : Nat) (cm : Option String)
    (c : Option (List String)) : (resolve_colors n cm c).length = n := by
  cases c with
  | some cs =>
    simp only [resolve_colors]
    split <;> simp
  | none => cases cm <;> simp [resolve_colors]

lemma pyListGetNat_ok {α : Type} {xs : List α} {i : Nat} (h : i < xs.length) :
    pyListGetNat xs i = Except.ok xs[i] := by
  unfold pyListGetNat
  rw [List.get?_eq_getElem?, List.getElem?_eq_getElem h]

lemma pyListGetInt_ok {α : Type} {xs : List α} {i : Int} (h0 : 0 ≤ i)
    (h : i.toNat < xs.length) : pyListGetInt xs i = Except.ok xs[i.toNat] := by
  unfold pyListGetInt
  rw [if_pos h0, List.get?_eq_getElem?, List.getElem?_eq_getElem h]

lemma pyListGetNat_range_zero {n : Nat} (h : 1 ≤ n) :
    pyListGetNat (List.range n) 0 = Except.ok 0 := by
  have h0 : 0 < (List.range n).length := by
    rw [List.length_range]
    omega
  rw [pyListGetNat_ok h0, List.getElem_range]

lemma pyListGetInt_range_neg_one {n : Nat} (h : 1 ≤ n) :
    pyListGetInt (List.range n) (-1) = Except.ok (n - 1) := by
  unfold pyListGetInt
  rw [if_neg (by omega), if_pos (by rw [List.length_range]; omega)]
  have hlt : (List.range n).length - (-(-1 : Int)).toNat = n - 1 := by
    rw [List.length_range]
    omega
  rw [hlt, List.get?_eq_getElem?,
    List.getElem?_eq_getElem (by rw [List.length_range]; omega),
    List.getElem_range]

lemma clsOf_eq_getElem {cs : List String} {l : Int} (h : l.toNat < cs.length) :
    clsOf cs l = cs[l.toNat] := by
  rw [clsOf, List.getD_eq_getElem?_getD, List.getElem?_eq_getElem h]
  rfl

lemma drawRows_ok (x : List Nat) (cs : List String)
    (colors : List (String × String)) (ys : List Int)
    (Hval : ∀ l ∈ ys, 0 ≤ l ∧ l < (cs.length : Int))
    (Hdict : ∀ k ∈ cs, k ∈ colors.map Prod.fst) :
    ∀ (rows : List RowData) (idx : Nat), idx + rows.length ≤ ys.length →
      drawRows x cs colors (some ys) idx rows
        = Except.ok (expectedPlots x cs colors ((ys.drop idx).zip rows)) := by
  intro rows
  induction rows with
  | nil =>
    intro idx h
    simp [drawRows, expectedPlots]
  | cons row rest ih =>
    intro idx h
    simp only [List.length_cons] at h
    have hidx : idx < ys.length := by omega
    have hl := Hval ys[idx] (List.getElem_mem hidx)
    have htn : (ys[idx]).toNat < cs.length := by omega
    have hy : pyListGetNat ys idx = Except.ok ys[idx] := pyListGetNat_ok hidx
    have hcls : pyListGetInt cs ys[idx] = Except.ok cs[(ys[idx]).toNat] :=
      pyListGetInt_ok hl.1 htn
    have hmem : cs[(ys[idx]).toNat] ∈ cs := List.getElem_mem htn
    have hdget := pyDictGet_ok (d := colors) (Hdict _ hmem)
    have hrec := ih (idx + 1) (by omega)
    rw [List.drop_eq_getElem_cons hidx, List.zip_cons_cons]
    simp only [drawRows, drawRow, expectedPlots, List.map_cons]
    rw [hy]
    simp only []
    rw [hcls]
    simp only []
    rw [hdget]
    simp only [expectedPlots] at hrec
    rw [hrec]
    simp only [clsOf_eq_getElem htn]

lemma fit_ok {s : PCState} {X : XData} {ys : List Int} {cs : List String}
    (Hres : resolveClasses s.classes_ (some ys) = Except.ok cs)
    (Hlen : ys.length = (pyEnumerate X).length)
    (Hval : ∀ l ∈ ys, 0 ≤ l ∧ l < (cs.length : Int))
    (Hnc : 1 ≤ X.ncols) :
    fit s X (some ys) = Except.ok
      ({ s with classes_ := some cs,
                features_ := some (resolveFeatures s.features_ X.columns X.ncols) },
       { plots := expectedPlots (List.range X.ncols) cs
           (pyZipDict cs (resolve_colors cs.length s.colormap s.color))
           (ys.zip (pyEnumerate X)),
         vlines := if s.show_vlines
           then (List.range X.ncols).map (fun i => (i, s.vlines_kwds)) else [],
         xticks := List.range X.ncols,
         xticklabels := resolveFeatures s.features_ X.columns X.ncols,
         xlim := some (0, X.ncols - 1) }) := by
  have Hdict : ∀ k ∈ cs,
      k ∈ (pyZipDict cs (resolve_colors cs.length s.colormap s.color)).map Prod.fst := by
    intro k hk
    rw [pyZipDict, List.map_fst_zip _ _ (by rw [resolve_colors_length])]
    exact hk
  have hdraw := drawRows_ok (List.range X.ncols) cs
    (pyZipDict cs (resolve_colors cs.length s.colormap s.color)) ys Hval Hdict
    (pyEnumerate X) 0 (by omega)
  rw [List.drop_zero] at hdraw
  have hx0 := pyListGetNat_range_zero Hnc
  have hxl := pyListGetInt_range_neg_one Hnc
  simp only [fit]
  rw [Hres]
  simp only []
  rw [hdraw]
  simp only []
  rw [hx0]
  simp only []
  rw [hxl]

lemma fit_ok_inv {s : PCState} {X : XData} {y : Option (List Int)}
    {s2 : PCState} {ax : Axes} (h : fit s X y = Except.ok (s2, ax)) :
    ∃ cs plots x0 xl,
      resolveClasses s.classes_ y = Except.ok cs ∧
      drawRows (List.range X.ncols) cs
          (pyZipDict cs (resolve_colors cs.length s.colormap s.color)) y 0
          (pyEnumerate X)
        = Except.ok plots ∧
      pyListGetNat (List.range X.ncols) 0 = Except.ok x0 ∧
      pyListGetInt (List.range X.ncols) (-1) = Except.ok xl ∧
      s2 = { s with classes_ := some cs,
                    features_ := some (resolveFeatures s.features_ X.columns X.ncols) } ∧
      ax = { plots := plots,
             vlines := if s.show_vlines
               then (List.range X.ncols).map (fun i => (i, s.vlines_kwds)) else [],
             xticks := List.range X.ncols,
             xticklabels := resolveFeatures s.features_ X.columns X.ncols,
             xlim := some (x0, xl) } := by
  simp only [fit] at h
  split at h
  · exact Except.noConfusion h
  next cs hres =>
    split at h
    · exact Except.noConfusion h
    next plots hdraw =>
      split at h
      · exact Except.noConfusion h
      next x0 hx0 =>
        split at h
        · exact Except.noConfusion h
        next xl hxl =>
          injection h with h
          rw [Prod.mk.injEq] at h
          exact ⟨cs, plots, x0, xl, hres, hdraw, hx0, hxl, h.1.symm, h.2.symm⟩

lemma fit_nonzero_ncols {s : PCState} {X : XData} {y : Option (List Int)}
    {s2 : PCState} {ax : Axes} (h : fit s X y = Except.ok (s2, ax)) :
    1 ≤ X.ncols := by
  obtain ⟨cs, plots, x0, xl, hres, hdraw, hx0, hxl, hs2, hax⟩ := fit_ok_inv h
  by_contra hc
  have h0 : X.ncols = 0 := by omega
  rw [h0] at hx0
  simp [pyListGetNat] at hx0

/-! Theorems for the claims. -/

/-- Claim C1, counterexamples.  The claim quantifies over every matrix of
shape `(N, F)` with valid labels, and fails in two ways.  First, for
`F = 0` the call does not complete: `x = list(range(0))` is empty and
`set_xlim(x[0], x[-1])` raises `IndexError` at `x[0]`; here `N = 1`,
`F = 0`, `y = [0]` with the single label a valid positional index into
the derived class list `["0"]`, yet `fit` aborts instead of returning a
figure with one polyline and zero ticks.  Second, for a column-labeled
(tabular) input, `for idx, row in enumerate(X)` iterates the column
labels, not the instance rows: with `N = 3` rows, `F = 2` columns
`["r", "g"]` and valid labels `[0, 1, 2]`, the call completes but issues
only 2 plot calls, each passing a column name, not 3 per-row
polylines. -/
theorem C1_count_guarantee_counterexamples :
    (fit (ParallelCoordinates.init none none none none true none)
        { rows := [[]], ncols := 0, columns := none } (some [0])
      = Except.error (PyError.indexError "list index out of range")) ∧
    (∃ p, fit (ParallelCoordinates.init none none none none true none)
        { rows := [[1, 2], [3, 4], [5, 6]], ncols := 2,
          columns := some ["r", "g"] } (some [0, 1, 2])
      = Except.ok p ∧
      p.2.plots
        = [{ xs := [0, 1], ys := RowData.colName "r", color := "color0",
             label := "0" },
           { xs := [0, 1], ys := RowData.colName "g", color := "color1",
             label := "1" }] ∧
      p.2.plots.length = 2) :=
  ⟨rfl, ⟨_, rfl, rfl, rfl⟩⟩

/-- Claim C1 (amended to plain matrix inputs with a positive column
count): for every plain matrix of shape `(N, F)` — no `columns`
attribute, so the loop iterates the instance rows — with `F ≥ 1` and a
label vector of length `N` whose labels are valid positional indices
into the resolved class list, `fit` succeeds, issues exactly `N`
`ax.plot` calls (one per instance row) and sets exactly `F` axis ticks
(one per feature column). -/
theorem C1_row_and_tick_counts (s : PCState) (X : XData) (ys : List Int)
    (cs : List String)
    (Hplain : X.columns = none)
    (Hres : resolveClasses s.classes_ (some ys) = Except.ok cs)
    (_Hrect : ∀ r ∈ X.rows, r.length = X.ncols)
    (Hlen : ys.length = X.rows.length)
    (Hval : ∀ l ∈ ys, 0 ≤ l ∧ l < (cs.length : Int))
    (Hnc : 1 ≤ X.ncols) :
    ∃ s2 ax, fit s X (some ys) = Except.ok (s2, ax) ∧
      ax.plots.length = X.rows.length ∧ ax.xticks.length = X.ncols := by
  have henum : pyEnumerate X = X.rows.map RowData.vals := by
    rw [pyEnumerate, Hplain]
  have Hlen2 : ys.length = (pyEnumerate X).length := by
    rw [henum, List.length_map, Hlen]
  refine ⟨_, _, fit_ok Hres Hlen2 Hval Hnc, ?_, ?_⟩
  · simp [expectedPlots, List.length_zip, henum, List.length_map, Hlen]
  · simp [List.length_range]

/-- Witness for the amended claim C1 at a concrete input: two rows, two
columns, labels `[0, 1]`. -/
theorem C1_row_and_tick_counts_witness :
    ∃ s2 ax,
      fit (ParallelCoordinates.init none none none none true none)
          { rows := [[1, 2], [3, 4]], ncols := 2, columns := none }
          (some [0, 1])
        = Except.ok (s2, ax) ∧ ax.plots.length = 2 ∧ ax.xticks.length = 2 :=
  C1_row_and_tick_counts (ParallelCoordinates.init none none none none true none)
    { rows := [[1, 2], [3, 4]], ncols := 2, columns := none } [0, 1]
    ["0", "1"] rfl rfl (by decide) rfl (by decide) (by decide)

/-- Claim C2, counterexample: for a column-labeled (tabular) input the
claim fails, because `for idx, row in enumerate(X)` iterates the column
labels, not the instances.  With one column `["a"]`, two rows and valid
labels `[0, 1]`, the call completes with a single plot call whose data
argument is the column name `"a"` — not instance 0's feature values —
and instance 1 receives no polyline at all. -/
theorem C2_tabular_counterexample :
    ∃ p, fit (ParallelCoordinates.init none none none none true none)
        { rows := [[1], [2]], ncols := 1, columns := some ["a"] }
        (some [0, 1])
      = Except.ok p ∧
      p.2.plots
        = [{ xs := [0], ys := RowData.colName "a", color := "color0",
             label := "0" }] ∧
      p.2.plots.get? 1 = none :=
  ⟨_, rfl, rfl, rfl⟩

/-- Claim C2 (amended to plain matrix inputs, where the loop iterates the
instance rows): for each instance `i`, `fit` uses the raw label `y[i]` as
a positional index into the resolved class list (`classes_[y[i]]`),
resolves that class color through the dictionary
`dict(zip(classes_, color_values))` built by pairing the class list with
the color sequence positionally, and records the polyline of row `i` with
exactly that color and tagged with that class name. -/
theorem C2_positional_label_and_color (s : PCState) (X : XData)
    (ys : List Int) (cs : List String)
    (Hplain : X.columns = none)
    (Hres : resolveClasses s.classes_ (some ys) = Except.ok cs)
    (Hlen : ys.length = X.rows.length)
    (Hval : ∀ l ∈ ys, 0 ≤ l ∧ l < (cs.length : Int))
    (Hnc : 1 ≤ X.ncols) :
    ∃ s2 ax, fit s X (some ys) = Except.ok (s2, ax) ∧
      ∀ i l row, ys.get? i = some l → X.rows.get? i = some row →
        pyListGetInt cs l = Except.ok (clsOf cs l) ∧
        pyDictGet (pyZipDict cs (resolve_colors cs.length s.colormap s.color))
            (clsOf cs l)
          = Except.ok (dictGetD
              (pyZipDict cs (resolve_colors cs.length s.colormap s.color))
              (clsOf cs l)) ∧
        ax.plots.get? i = some
          { xs := List.range X.ncols, ys := RowData.vals row,
            color := dictGetD
              (pyZipDict cs (resolve_colors cs.length s.colormap s.color))
              (clsOf cs l),
            label := clsOf cs l } := by
  have henum : pyEnumerate X = X.rows.map RowData.vals := by
    rw [pyEnumerate, Hplain]
  have Hlen2 : ys.length = (pyEnumerate X).length := by
    rw [henum, List.length_map, Hlen]
  refine ⟨_, _, fit_ok Hres Hlen2 Hval Hnc, ?_⟩
  intro i l row hl hrow
  have hmem : l ∈ ys := by
    rw [List.get?_eq_getElem?] at hl
    exact List.getElem?_mem hl
  have hvl := Hval l hmem
  have htn : l.toNat < cs.length := by omega
  refine ⟨?_, ?_, ?_⟩
  · rw [pyListGetInt_ok hvl.1 htn, clsOf_eq_getElem htn]
  · apply pyDictGet_ok
    rw [pyZipDict, List.map_fst_zip _ _ (by rw [resolve_colors_length])]
    rw [clsOf_eq_getElem htn]
    exact List.getElem_mem htn
  · have henumi : (pyEnumerate X).get? i = some (RowData.vals row) := by
      rw [henum, List.get?_map, hrow]
      rfl
    have hz : (ys.zip (pyEnumerate X)).get? i = some (l, RowData.vals row) := by
      rw [List.get?_eq_getElem?] at hl henumi ⊢
      exact List.getElem?_zip_eq_some.mpr ⟨hl, henumi⟩
    show (expectedPlots _ _ _ _).get? i = _
    rw [expectedPlots, List.get?_map, hz]
    rfl

/-- Witness for claim C2 at a concrete input: two rows, two columns,
labels `[0, 1]`, derived classes `["0", "1"]`. -/
theorem C2_positional_label_and_color_witness :
    ∃ s2 ax,
      fit (ParallelCoordinates.init none none none none true none)
          { rows := [[1, 2], [3, 4]], ncols := 2, columns := none }
          (some [0, 1])
        = Except.ok (s2, ax) ∧
      ∀ i l row, ([0, 1] : List Int).get? i = some l →
        ([[1, 2], [3, 4]] : List (List Int)).get? i = some row →
        pyListGetInt ["0", "1"] l = Except.ok (clsOf ["0", "1"] l) ∧
        pyDictGet (pyZipDict ["0", "1"] (resolve_colors 2 none none))
            (clsOf ["0", "1"] l)
          = Except.ok (dictGetD
              (pyZipDict ["0", "1"] (resolve_colors 2 none none))
              (clsOf ["0", "1"] l)) ∧
        ax.plots.get? i = some
          { xs := List.range 2, ys := RowData.vals row,
            color := dictGetD
              (pyZipDict ["0", "1"] (resolve_colors 2 none none))
              (clsOf ["0", "1"] l),
            label := clsOf ["0", "1"] l } :=
  C2_positional_label_and_color
    (ParallelCoordinates.init none none none none true none)
    { rows := [[1, 2], [3, 4]], ncols := 2, columns := none } [0, 1]
    ["0", "1"] rfl rfl rfl (by decide) (by decide)

/-- Claim C3: when no explicit feature names are supplied, the resolved
feature list equals the column labels of the matrix when it exposes them,
and otherwise the zero-based stringified column indices; in particular
columns `["a", "b", "c"]` resolve to exactly that list and a plain
3-column matrix resolves to `["0", "1", "2"]`. -/
theorem C3_feature_name_derivation :
    (∀ (cols : List String) (ncols : Nat),
        resolveFeatures none (some cols) ncols = cols) ∧
    (∀ ncols : Nat,
        resolveFeatures none none ncols
          = (List.range ncols).map (fun c => toString c)) ∧
    resolveFeatures none (some ["a", "b", "c"]) 3 = ["a", "b", "c"] ∧
    resolveFeatures none none 3 = ["0", "1", "2"] :=
  ⟨fun _ _ => rfl, fun _ => rfl, rfl, by decide⟩

/-- Claim C4: when no label vector is supplied and no explicit class list
was pre-set, `fit` aborts while resolving classes, before any line is
drawn: `set(y)` with `y = None` raises the `TypeError` for iterating
`None`.  No axes output is produced, so no unclassed lines are drawn. -/
theorem C4_missing_labels_abort (features color : Option (List String))
    (colormap : Option String) (vlines : Bool)
    (vk : Option (List (String × SVal))) (X : XData) :
    fit (ParallelCoordinates.init features none color colormap vlines vk) X none
      = Except.error (PyError.typeError "NoneType object is not iterable") := rfl

/-- Claim C5, code behavior at the failing input: a 3-column matrix with
an explicit feature list of length 2 is accepted without any shape check.
The call completes successfully, draws its polyline, sets 3 ticks and
hands the 2 feature names to `set_xticklabels`; it does not abort before
drawing as the claim requires. -/
theorem C5_shape_mismatch_not_checked :
    ∃ p, fit (ParallelCoordinates.init (some ["a", "b"]) none none none true none)
        { rows := [[1, 2, 3]], ncols := 3, columns := none } (some [0])
      = Except.ok p ∧
      p.2.plots.length = 1 ∧ p.2.xticks.length = 3 ∧
      p.2.xticklabels = ["a", "b"] :=
  ⟨_, rfl, rfl, rfl, rfl⟩

/-- Claim C6, code behavior at the failing input: with classes
`["a", "b"]` and labels `[0, 5]`, instance 1 carries the out-of-bounds
label 5 and `classes_[5]` raises the generic
`IndexError("list index out of range")`.  The same error value arises
when the offending instance is instance 0 (labels `[5, 0]`), so the
surfaced error does not identify the offending instance index. -/
theorem C6_oob_label_generic_index_error :
    fit (ParallelCoordinates.init none (some ["a", "b"]) none none true none)
        { rows := [[1], [2]], ncols := 1, columns := none } (some [0, 5])
      = Except.error (PyError.indexError "list index out of range") ∧
    fit (ParallelCoordinates.init none (some ["a", "b"]) none none true none)
        { rows := [[1], [2]], ncols := 1, columns := none } (some [5, 0])
      = Except.error (PyError.indexError "list index out of range") :=
  ⟨rfl, rfl⟩

/-- Claim C7: whenever `fit` completes on a matrix with `F` features, the
horizontal extent is exactly `[0, F - 1]` with no padding, the tick
positions are the integer axis positions `0 .. F - 1`, and the tick
labels are the resolved feature names. -/
theorem C7_axis_extent_and_ticks (s : PCState) (X : XData)
    (y : Option (List Int)) (s2 : PCState) (ax : Axes)
    (h : fit s X y = Except.ok (s2, ax)) :
    ax.xlim = some (0, X.ncols - 1) ∧
    ax.xticks = List.range X.ncols ∧
    ∃ fs, s2.features_ = some fs ∧ ax.xticklabels = fs := by
  have h1 := fit_nonzero_ncols h
  obtain ⟨cs, plots, x0, xl, hres, hdraw, hx0, hxl, hs2, hax⟩ := fit_ok_inv h
  rw [pyListGetNat_range_zero h1] at hx0
  rw [pyListGetInt_range_neg_one h1] at hxl
  injection hx0 with hx0
  injection hxl with hxl
  subst hs2
  subst hax
  exact ⟨by rw [← hx0, ← hxl], rfl, ⟨_, rfl, rfl⟩⟩

/-- Concrete visualizer state for the C7 witness: the default constructor
arguments. -/
def pcW7 : PCState := ParallelCoordinates.init none none none none true none

/-- Concrete matrix for the C7 witness: one row, two columns. -/
def XW7 : XData := { rows := [[1, 2]], ncols := 2, columns := none }

/-- The state cached by `fit pcW7 XW7 (some [0])`. -/
def s2W7 : PCState :=
  { features_ := some ["0", "1"], classes_ := some ["0"], color := none,
    colormap := none, show_vlines := true, vlines_kwds := defaultVlinesKwds }

/-- The axes record produced by `fit pcW7 XW7 (some [0])`. -/
def axW7 : Axes :=
  { plots := [{ xs := [0, 1], ys := RowData.vals [1, 2], color := "color0", label := "0" }],
    vlines := [(0, defaultVlinesKwds), (1, defaultVlinesKwds)],
    xticks := [0, 1], xticklabels := ["0", "1"], xlim := some (0, 1) }

/-- Witness for claim C7 at a concrete successful `fit` call. -/
theorem C7_axis_extent_and_ticks_witness :
    axW7.xlim = some (0, XW7.ncols - 1) ∧
    axW7.xticks = List.range XW7.ncols ∧
    ∃ fs, s2W7.features_ = some fs ∧ axW7.xticklabels = fs :=
  C7_axis_extent_and_ticks pcW7 XW7 (some [0]) s2W7 axW7 rfl

/-- Claim C8: for a visualizer constructed without style overrides, a
completed `fit` draws exactly one vertical guide line at each of the `F`
axis positions when the `vlines` flag is true, each styled with the
default style `{linewidth: 1, color: black}`, and draws zero guide lines
when the flag is false. -/
theorem C8_vertical_guide_lines (b : Bool) (f c col : Option (List String))
    (cm : Option String) (X : XData) (y : Option (List Int)) (s2 : PCState)
    (ax : Axes)
    (h : fit (ParallelCoordinates.init f c col cm b none) X y
      = Except.ok (s2, ax)) :
    ax.vlines
      = (if b then (List.range X.ncols).map (fun i => (i, defaultVlinesKwds))
         else ([] : List (Nat × List (String × SVal)))) ∧
    ax.vlines.length = (if b then X.ncols else 0) ∧
    defaultVlinesKwds = [("linewidth", SVal.int 1), ("color", SVal.str "black")] := by
  obtain ⟨cs, plots, x0, xl, hres, hdraw, hx0, hxl, hs2, hax⟩ := fit_ok_inv h
  subst hax
  refine ⟨rfl, ?_, rfl⟩
  cases b <;> simp [ParallelCoordinates.init]

/-- Concrete matrix for the C8 witness. -/
def XW8 : XData := { rows := [[1, 2]], ncols := 2, columns := none }

/-- The state cached by the C8 witness runs (it does not depend on the
`vlines` flag apart from the recorded flag itself). -/
def s2W8 (b : Bool) : PCState :=
  { features_ := some ["0", "1"], classes_ := some ["0"], color := none,
    colormap := none, show_vlines := b, vlines_kwds := defaultVlinesKwds }

/-- The axes record produced by the C8 witness run with the flag on. -/
def axW8t : Axes :=
  { plots := [{ xs := [0, 1], ys := RowData.vals [1, 2], color := "color0", label := "0" }],
    vlines := [(0, defaultVlinesKwds), (1, defaultVlinesKwds)],
    xticks := [0, 1], xticklabels := ["0", "1"], xlim := some (0, 1) }

/-- The axes record produced by the C8 witness run with the flag off. -/
def axW8f : Axes :=
  { plots := [{ xs := [0, 1], ys := RowData.vals [1, 2], color := "color0", label := "0" }],
    vlines := [], xticks := [0, 1], xticklabels := ["0", "1"],
    xlim := some (0, 1) }

/-- Witness for claim C8: one concrete run with the flag on (two default
styled guide lines) and one with the flag off (none). -/
theorem C8_vertical_guide_lines_witness :
    (axW8t.vlines
        = (if true then (List.range XW8.ncols).map (fun i => (i, defaultVlinesKwds))
           else ([] : List (Nat × List (String × SVal)))) ∧
      axW8t.vlines.length = (if true then XW8.ncols else 0) ∧
      defaultVlinesKwds = [("linewidth", SVal.int 1), ("color", SVal.str "black")]) ∧
    (axW8f.vlines
        = (if false then (List.range XW8.ncols).map (fun i => (i, defaultVlinesKwds))
           else ([] : List (Nat × List (String × SVal)))) ∧
      axW8f.vlines.length = (if false then XW8.ncols else 0) ∧
      defaultVlinesKwds = [("linewidth", SVal.int 1), ("color", SVal.str "black")]) :=
  ⟨C8_vertical_guide_lines true none none none none XW8 (some [0])
      (s2W8 true) axW8t rfl,
   C8_vertical_guide_lines false none none none none XW8 (some [0])
      (s2W8 false) axW8f rfl⟩

/-- Claim C9: feature and class resolution is idempotent.  A successful
`fit` caches the resolved lists on the visualizer; calling `fit` again on
the returned state with identical input takes the cached branch for both
lists and reproduces exactly the same state and the same drawing calls. -/
theorem C9_fit_idempotent (s : PCState) (X : XData) (y : Option (List Int))
    (s2 : PCState) (ax : Axes) (h : fit s X y = Except.ok (s2, ax)) :
    fit s2 X y = Except.ok (s2, ax) := by
  obtain ⟨cs, plots, x0, xl, hres, hdraw, hx0, hxl, hs2, hax⟩ := fit_ok_inv h
  subst hs2
  subst hax
  simp only [fit, resolveClasses, resolveFeatures]
  rw [hdraw]
  simp only []
  rw [hx0]
  simp only []
  rw [hxl]

/-- Concrete visualizer state for the C9 witness. -/
def pcW9 : PCState := ParallelCoordinates.init none none none none true none

/-- Concrete matrix for the C9 witness: two rows, two columns. -/
def XW9 : XData := { rows := [[1, 2], [3, 4]], ncols := 2, columns := none }

/-- The state cached by `fit pcW9 XW9 (some [0, 1])`. -/
def s2W9 : PCState :=
  { features_ := some ["0", "1"], classes_ := some ["0", "1"], color := none,
    colormap := none, show_vlines := true, vlines_kwds := defaultVlinesKwds }

/-- The axes record produced by `fit pcW9 XW9 (some [0, 1])`. -/
def axW9 : Axes :=
  { plots := [{ xs := [0, 1], ys := RowData.vals [1, 2], color := "color0",
                label := "0" },
              { xs := [0, 1], ys := RowData.vals [3, 4], color := "color1",
                label := "1" }],
    vlines := [(0, defaultVlinesKwds), (1, defaultVlinesKwds)],
    xticks := [0, 1], xticklabels := ["0", "1"], xlim := some (0, 1) }

/-- Witness for claim C9: refitting the already-resolved state from a
concrete run reproduces the identical state and axes. -/
theorem C9_fit_idempotent_witness :
    fit s2W9 XW9 (some [0, 1]) = Except.ok (s2W9, axW9) :=
  C9_fit_idempotent pcW9 XW9 (some [0, 1]) s2W9 axW9 rfl

/-- Claim C10: passing an explicitly empty style dictionary for
`vlines_kwds` is indistinguishable from passing none: the constructor
replaces any falsy value with the default style
`{linewidth: 1, color: black}`, so an empty override cannot be
expressed. -/
theorem C10_empty_style_replaced (features classes color : Option (List String))
    (colormap : Option String) (vlines : Bool) :
    (ParallelCoordinates.init features classes color colormap vlines
        (some [])).vlines_kwds
      = [("linewidth", SVal.int 1), ("color", SVal.str "black")] ∧
    (ParallelCoordinates.init features classes color colormap vlines
        (some [])).vlines_kwds
      = (ParallelCoordinates.init features classes color colormap vlines
          none).vlines_kwds :=
  ⟨rfl, rfl⟩

end PCoords
